import Mathlib

/-!
Shallow embedding of `src/axevent/custome_subscribe.py`, a Python script that
subscribes to a camera's event stream and prints parsed detection events.

Python values that can appear as decoded JSON are modelled by `Json`;
Python exceptions relevant to this program by `PyExn`.  String primitives
(`startswith`, slicing, `strip`, substring `in`) are modelled on the
character list underlying a `String`, matching Python's codepoint semantics.
-/

/-- A decoded JSON value, as produced by Python's `json.loads`.  Floats keep
their literal text: the program never arithmetically uses numbers, it only
needs their Python type and printed form. -/
inductive Json where
  | null : Json
  | bool (b : Bool) : Json
  | num (n : Int) : Json
  | jfloat (raw : String) : Json
  | str (s : String) : Json
  | arr (xs : List Json) : Json
  | obj (fields : List (String × Json)) : Json

/-- The Python exceptions this program can encounter.  All but
`keyboardInterrupt` are subclasses of `Exception`. -/
inductive PyExn where
  | jsonDecodeError (msg : String) : PyExn
  | keyboardInterrupt : PyExn
  | attributeError (msg : String) : PyExn
  | typeError (msg : String) : PyExn
  | requestError (msg : String) : PyExn
deriving DecidableEq, Repr

/-- Python `type(v).__name__` for a decoded JSON value. -/
def Json.pyTypeName : Json → String
  | .null => "NoneType"
  | .bool _ => "bool"
  | .num _ => "int"
  | .jfloat _ => "float"
  | .str _ => "str"
  | .arr _ => "list"
  | .obj _ => "dict"

/-- Does `pre` occur at the start of `l`?  (helper for `str.startswith`). -/
def listStarts : List Char → List Char → Bool
  | [], _ => true
  | _ :: _, [] => false
  | a :: as, b :: bs => a == b && listStarts as bs

/-- Does `needle` occur contiguously inside `hay`?  (helper for Python's
substring `in`). -/
def listHasSub (needle : List Char) : List Char → Bool
  | [] => listStarts needle []
  | b :: bs => listStarts needle (b :: bs) || listHasSub needle bs

/-- Python `line.startswith(pre)`. -/
def pyStartsWith (s pre : String) : Bool := listStarts pre.data s.data

/-- Python `s[n:]` (drop the first `n` codepoints). -/
def pyDrop (s : String) (n : Nat) : String := String.mk (s.data.drop n)

/-- Python `s.strip()` (remove leading and trailing whitespace). -/
def pyStrip (s : String) : String :=
  String.mk (((s.data.dropWhile Char.isWhitespace).reverse.dropWhile
    Char.isWhitespace).reverse)

/-- Python `needle in hay` for two strings (substring containment). -/
def pyInStr (needle hay : String) : Bool := listHasSub needle.data hay.data

/-- JSON whitespace, as accepted by Python's `json` module. -/
def isJsonWs (c : Char) : Bool := c == ' ' || c == '\t' || c == '\n' || c == '\r'

/-- Drop leading JSON whitespace. -/
def skipWs (cs : List Char) : List Char := cs.dropWhile isJsonWs

/-- Value of a hexadecimal digit, if any. -/
def hexVal (c : Char) : Option Nat :=
  if '0' ≤ c ∧ c ≤ '9' then some (c.toNat - 48)
  else if 'a' ≤ c ∧ c ≤ 'f' then some (c.toNat - 87)
  else if 'A' ≤ c ∧ c ≤ 'F' then some (c.toNat - 55)
  else none

/-- Parse the body of a JSON string literal (opening quote already consumed);
returns the content and the remainder after the closing quote.  Mirrors the
strict mode of Python's `json`: raw control characters and bad escapes are
rejected. -/
def parseStringChars : List Char → Option (List Char × List Char)
  | [] => none
  | c :: rest =>
    if c == '"' then some ([], rest)
    else if c == '\\' then
      match rest with
      | [] => none
      | e :: rest2 =>
        if e == 'u' then
          match rest2 with
          | h1 :: h2 :: h3 :: h4 :: rest3 =>
            match hexVal h1, hexVal h2, hexVal h3, hexVal h4 with
            | some a, some b, some cc, some d =>
              (parseStringChars rest3).map
                (fun p => (Char.ofNat (((a * 16 + b) * 16 + cc) * 16 + d) :: p.1, p.2))
            | _, _, _, _ => none
          | _ => none
        else
          match
            (if e == '"' then some '"'
             else if e == '\\' then some '\\'
             else if e == '/' then some '/'
             else if e == 'b' then some (Char.ofNat 8)
             else if e == 'f' then some (Char.ofNat 12)
             else if e == 'n' then some '\n'
             else if e == 'r' then some '\r'
             else if e == 't' then some '\t'
             else none) with
          | some d => (parseStringChars rest2).map (fun p => (d :: p.1, p.2))
          | none => none
    else if c.toNat < 32 then none
    else (parseStringChars rest).map (fun p => (c :: p.1, p.2))

/-- Digits of a decimal literal to a natural number. -/
def digitsToNat (ds : List Char) : Nat :=
  ds.foldl (fun a c => a * 10 + (c.toNat - 48)) 0

/-- Parse the integer digits of a JSON number (strict grammar: `0` or a
nonzero leading digit). -/
def parseIntDigits : List Char → Option (List Char × List Char)
  | [] => none
  | c :: rest =>
    if c == '0' then some (['0'], rest)
    else if c.isDigit then
      let p := rest.span Char.isDigit
      some (c :: p.1, p.2)
    else none

/-- Parse an optional fraction part `.digits`; returns its characters (empty
when absent). -/
def parseFracPart : List Char → Option (List Char × List Char)
  | '.' :: rest =>
    let p := rest.span Char.isDigit
    if p.1.isEmpty then none else some ('.' :: p.1, p.2)
  | cs => some ([], cs)

/-- Parse an optional exponent part `[eE][+-]?digits`; returns its characters
(empty when absent). -/
def parseExpPart : List Char → Option (List Char × List Char)
  | c :: rest =>
    if c == 'e' || c == 'E' then
      match rest with
      | s :: rest2 =>
        if s == '+' || s == '-' then
          let p := rest2.span Char.isDigit
          if p.1.isEmpty then none else some (c :: s :: p.1, p.2)
        else
          let p := (s :: rest2).span Char.isDigit
          if p.1.isEmpty then none else some (c :: p.1, p.2)
      | [] => none
    else some ([], c :: rest)
  | [] => some ([], [])

/-- Parse a JSON number (Python also accepts `Infinity`, `-Infinity`, `NaN`).
An integer literal becomes a Python `int`, otherwise a `float`. -/
def parseNumber (cs : List Char) : Option (Json × List Char) :=
  match cs with
  | 'N' :: 'a' :: 'N' :: r => some (.jfloat "nan", r)
  | 'I' :: 'n' :: 'f' :: 'i' :: 'n' :: 'i' :: 't' :: 'y' :: r => some (.jfloat "inf", r)
  | '-' :: 'I' :: 'n' :: 'f' :: 'i' :: 'n' :: 'i' :: 't' :: 'y' :: r =>
    some (.jfloat "-inf", r)
  | _ =>
    let sgn : Bool × List Char :=
      match cs with
      | '-' :: r => (true, r)
      | _ => (false, cs)
    match parseIntDigits sgn.2 with
    | none => none
    | some (ids, rest) =>
      match parseFracPart rest with
      | none => none
      | some (fds, rest2) =>
        match parseExpPart rest2 with
        | none => none
        | some (eds, rest3) =>
          if fds.isEmpty && eds.isEmpty then
            let n : Int := Int.ofNat (digitsToNat ids)
            some (.num (if sgn.1 then -n else n), rest3)
          else
            some (.jfloat (String.mk ((if sgn.1 then ['-'] else []) ++ ids ++ fds ++ eds)),
              rest3)

mutual

/-- Parse one JSON value, fuel-bounded (the fuel only limits nesting and
element count, both below the input length). -/
def parseValue : Nat → List Char → Option (Json × List Char)
  | 0, _ => none
  | fuel + 1, cs =>
    match skipWs cs with
    | 'n' :: 'u' :: 'l' :: 'l' :: r => some (.null, r)
    | 't' :: 'r' :: 'u' :: 'e' :: r => some (.bool true, r)
    | 'f' :: 'a' :: 'l' :: 's' :: 'e' :: r => some (.bool false, r)
    | '"' :: r =>
      match parseStringChars r with
      | some (content, r2) => some (.str (String.mk content), r2)
      | none => none
    | '[' :: r =>
      (parseArrayItems fuel (skipWs r) true).map (fun p => (Json.arr p.1, p.2))
    | '\x7b' :: r =>
      (parseObjectItems fuel (skipWs r) true).map (fun p => (Json.obj p.1, p.2))
    | cs2 => parseNumber cs2

/-- Parse array elements after `[`; `first` is true before any element. -/
def parseArrayItems : Nat → List Char → Bool → Option (List Json × List Char)
  | 0, _, _ => none
  | fuel + 1, cs, first =>
    if first ∧ cs.head? = some ']' then
      some ([], cs.tail)
    else
      match parseValue fuel cs with
      | none => none
      | some (v, r) =>
        match skipWs r with
        | ',' :: r2 =>
          (parseArrayItems fuel (skipWs r2) false).map (fun p => (v :: p.1, p.2))
        | ']' :: r2 => some ([v], r2)
        | _ => none

/-- Parse object members after an opening brace; `first` is true before any
member. -/
def parseObjectItems : Nat → List Char → Bool →
    Option (List (String × Json) × List Char)
  | 0, _, _ => none
  | fuel + 1, cs, first =>
    if first ∧ cs.head? = some '\x7d' then
      some ([], cs.tail)
    else
      match cs with
      | '"' :: r =>
        match parseStringChars r with
        | none => none
        | some (key, r2) =>
          match skipWs r2 with
          | ':' :: r3 =>
            match parseValue fuel r3 with
            | none => none
            | some (v, r4) =>
              match skipWs r4 with
              | ',' :: r5 =>
                (parseObjectItems fuel (skipWs r5) false).map
                  (fun p => ((String.mk key, v) :: p.1, p.2))
              | '\x7d' :: r5 => some ([(String.mk key, v)], r5)
              | _ => none
          | _ => none
      | _ => none

end

/-- Python `json.loads`: parse one document, allowing only trailing
whitespace; `none` models a raised `json.JSONDecodeError`. -/
def parseJson (s : String) : Option Json :=
  match parseValue (s.data.length + 2) s.data with
  | some (v, rest) => if skipWs rest = [] then some v else none
  | none => none

/-- Last-wins association lookup, matching how Python's `json` builds dicts
(a repeated key overwrites the earlier one). -/
def lookupLast (fields : List (String × Json)) (key : String) : Option Json :=
  fields.foldl (fun acc kv => if kv.1 == key then some kv.2 else acc) none

/-- `dict.get(key, default)` on the fields of a decoded JSON object. -/
def dictGet (fields : List (String × Json)) (key : String) (default : Json) : Json :=
  match lookupLast fields key with
  | some v => v
  | none => default

/-- Python `v.get(key, default)`: succeeds only when `v` is a dict, otherwise
raises `AttributeError` (only dicts among decoded JSON values have `get`). -/
def pyGet (v : Json) (key : String) (default : Json) : Except PyExn Json :=
  match v with
  | .obj fields => .ok (dictGet fields key default)
  | other =>
    .error (.attributeError
      ("\x27" ++ other.pyTypeName ++ "\x27 object has no attribute \x27get\x27"))

/-- Python `==` between a decoded JSON value and a string. -/
def jsonEqStr (v : Json) (s : String) : Bool :=
  match v with
  | .str t => t == s
  | _ => false

/-- Python `needle in container` for a string needle: substring test on a
str, key test on a dict, membership on a list; `TypeError` otherwise. -/
def pyContains (needle : String) (container : Json) : Except PyExn Bool :=
  match container with
  | .str s => .ok (pyInStr needle s)
  | .obj fields => .ok (fields.any (fun kv => kv.1 == needle))
  | .arr xs => .ok (xs.any (fun v => jsonEqStr v needle))
  | other =>
    .error (.typeError
      ("argument of type \x27" ++ other.pyTypeName ++ "\x27 is not iterable"))

/-- Python `repr` of a decoded JSON value, fuel-bounded for the nested
containers (the fuel is always given as the value's size). -/
def pyReprFuel : Nat → Json → String
  | _, .null => "None"
  | _, .bool true => "True"
  | _, .bool false => "False"
  | _, .num n => toString n
  | _, .jfloat raw => raw
  | _, .str s => "\x27" ++ s ++ "\x27"
  | 0, _ => ""
  | fuel + 1, .arr xs =>
    "[" ++ String.intercalate ", " (xs.map (pyReprFuel fuel)) ++ "]"
  | fuel + 1, .obj fields =>
    "\x7b" ++
      String.intercalate ", "
        (fields.map (fun kv => "\x27" ++ kv.1 ++ "\x27: " ++ pyReprFuel fuel kv.2)) ++
      "\x7d"

/-- CPython's default recursion limit, bounding how deep `repr` can walk a
nested container before the interpreter gives up. -/
def pythonRecursionLimit : Nat := 1000

/-- Python `str(v)` as used by an f-string: a str interpolates as itself,
every other value by its repr (depth-bounded like CPython's recursion). -/
def pyStr (v : Json) : String :=
  match v with
  | .str s => s
  | other => pyReprFuel pythonRecursionLimit other

/-- The horizontal rule `"=" * 60`. -/
def eqLine : String := String.mk (List.replicate 60 '=')

/-- The horizontal rule `"-" * 60`. -/
def dashLine : String := String.mk (List.replicate 60 '-')

/-- The detection block of source lines 46-52: the first three prints always
succeed, then each `data.get` may raise (when `data` is not a dict) after the
earlier prints already happened. -/
def detectionBlock (topic data timestamp : Json) : List String × Option PyExn :=
  let l1 := "🎯 OBJECT DETECTION EVENT!"
  let l2 := "   ⏰ Time: " ++ pyStr timestamp
  let l3 := "   📂 Topic: " ++ pyStr topic
  match pyGet data "ObjectClass" (.str "N/A") with
  | .error e => ([l1, l2, l3], some e)
  | .ok c =>
    let l4 := "   🏷️  Class: " ++ pyStr c
    match pyGet data "Confidence" (.str "N/A") with
    | .error e => ([l1, l2, l3, l4], some e)
    | .ok conf =>
      let l5 := "   📊 Confidence: " ++ pyStr conf
      match pyGet data "BoundingBox" (.str "N/A") with
      | .error e => ([l1, l2, l3, l4, l5], some e)
      | .ok bb =>
        let l6 := "   📐 BBox: " ++ pyStr bb
        ([l1, l2, l3, l4, l5, l6, dashLine], none)

/-- Source lines 41-52: extract `topic`, `data`, `@timestamp` with defaults,
test the two substring conditions (short-circuit `and`), and print the block
when both hold.  Any raised exception carries the output printed so far. -/
def processData (event_data : Json) : List String × Option PyExn :=
  match pyGet event_data "topic" (.str "Unknown") with
  | .error e => ([], some e)
  | .ok topic =>
    match pyGet event_data "data" (.obj []) with
    | .error e => ([], some e)
    | .ok data =>
      match pyGet event_data "@timestamp" (.str "Unknown") with
      | .error e => ([], some e)
      | .ok timestamp =>
        match pyContains "VideoAnalytics" topic with
        | .error e => ([], some e)
        | .ok false => ([], none)
        | .ok true =>
          match pyContains "ObjectDetected" topic with
          | .error e => ([], some e)
          | .ok false => ([], none)
          | .ok true => detectionBlock topic data timestamp

/-- What one loop iteration produced: printed lines, the arguments passed to
`json.loads` (instrumentation for the control-flow claims), and an exception
escaping the iteration, if any. -/
structure LineResult where
  out : List String
  jsonCalls : List String
  exn : Option PyExn
deriving DecidableEq, Repr

/-- Source lines 30-55, the body run for each streamed line: skip falsy
(empty) lines, echo, and for a `data:` line with a non-empty stripped payload
attempt `json.loads`; a `JSONDecodeError` is caught by the inner handler
(`pass`), any other exception escapes the iteration. -/
def processLine (line : String) : LineResult :=
  if line = "" then ⟨[], [], none⟩
  else
    let echo := "📨 " ++ line
    if pyStartsWith line "data:" then
      let json_str := pyStrip (pyDrop line 5)
      if json_str = "" then ⟨[echo], [], none⟩
      else
        match parseJson json_str with
        | none => ⟨[echo], [json_str], none⟩
        | some event_data =>
          let r := processData event_data
          ⟨echo :: r.1, [json_str], r.2⟩
    else ⟨[echo], [], none⟩

/-- The `for line in response.iter_lines(...)` loop over the delivered lines:
an exception escaping an iteration stops the loop before later lines. -/
def runLoop : List String → List String × List String × Option PyExn
  | [] => ([], [], none)
  | line :: rest =>
    let r := processLine line
    match r.exn with
    | some e => (r.out, r.jsonCalls, some e)
    | none =>
      let t := runLoop rest
      (r.out ++ t.1, r.jsonCalls ++ t.2.1, t.2.2)

/-- How the stream ends once all delivered lines were consumed: a clean close,
or an exception raised while waiting for more data (transport failure or a
keyboard interrupt). -/
inductive StreamEnd where
  | normal : StreamEnd
  | exn (e : PyExn) : StreamEnd
deriving DecidableEq, Repr

/-- The environment of one run: an exception from `requests.get` /
`raise_for_status` (if any), the lines the stream delivered, and how the
stream ended afterwards. -/
structure World where
  requestExn : Option PyExn
  lines : List String
  streamEnd : StreamEnd
deriving DecidableEq, Repr

/-- The HTTP request as constructed by source lines 11-26. -/
structure HttpRequest where
  method : String
  url : String
  params : List (String × String)
  authScheme : String
  authUser : String
  authPass : String
  stream : Bool
  timeout : Nat
deriving DecidableEq, Repr

/-- What a run of `subscribe_to_events` yields: the request it built, the
console output, whether the code ever explicitly closed/released the response
(the source has no `with` block, `try/finally` or `close()` call, so no run
sets this), and an exception propagated to the caller, if any. -/
structure RunResult where
  request : HttpRequest
  output : List String
  closed : Bool
  propagated : Option PyExn
deriving DecidableEq, Repr

/-- The three banner prints of source lines 19-21, before the `try` block. -/
def headerLines (camera_ip : String) : List String :=
  ["🔗 Subscribing to VideoAnalytics events on " ++ camera_ip,
   "🎯 Listening for events... (Press Ctrl+C to stop)",
   eqLine]

/-- The `try` block of lines 23-55: a request-time exception aborts before any
line is read; otherwise the loop runs, and a clean stream end raises
nothing. -/
def tryBody (w : World) : List String × Option PyExn :=
  match w.requestExn with
  | some e => ([], some e)
  | none =>
    let r := runLoop w.lines
    match r.2.2 with
    | some e => (r.1, some e)
    | none =>
      match w.streamEnd with
      | .normal => (r.1, none)
      | .exn e => (r.1, some e)

/-- Is the exception an instance of Python's `Exception` class?
(`KeyboardInterrupt` derives from `BaseException` only.) -/
def isExceptionInstance : PyExn → Bool
  | .keyboardInterrupt => false
  | _ => true

/-- Python `str(e)` for the exceptions of this model. -/
def pyExnStr : PyExn → String
  | .jsonDecodeError m => m
  | .keyboardInterrupt => ""
  | .attributeError m => m
  | .typeError m => m
  | .requestError m => m

/-- The two `except` clauses of lines 57-60: `KeyboardInterrupt` prints the
stop message, any `Exception` prints the error message; anything else (none
in this model) would propagate. -/
def outerHandle : Option PyExn → List String × Option PyExn
  | none => ([], none)
  | some .keyboardInterrupt => (["\n🛑 Stopped by user"], none)
  | some e =>
    if isExceptionInstance e then (["❌ Error: " ++ pyExnStr e], none)
    else ([], some e)

/-- `subscribe_to_events(camera_ip, username, password)` run against a given
environment: build the request, print the banner, run the guarded body, apply
the handlers. -/
def subscribe_to_events (camera_ip username password : String) (w : World) :
    RunResult :=
  let req : HttpRequest :=
    ⟨"GET", "http://" ++ camera_ip ++ "/axis-cgi/event.cgi",
     [("action", "subscribe"), ("events", "tns1:VideoAnalytics/*")],
     "Digest", username, password, true, 60⟩
  let body := tryBody w
  let handled := outerHandle body.2
  ⟨req, headerLines camera_ip ++ body.1 ++ handled.1, false, handled.2⟩

/-- Default credentials of the source's signature. -/
def defaultUsername : String := "root"

/-- Default password of the source's signature. -/
def defaultPassword : String := "pass"

/-- The `__main__` entry: calls `subscribe_to_events` on the hardcoded camera
address with both credential defaults. -/
def main_run (w : World) : RunResult :=
  subscribe_to_events "169.254.118.229" defaultUsername defaultPassword w

/-- Applying the outer handlers never lets an exception of this program
propagate: `KeyboardInterrupt` is caught by the first clause and every other
modelled exception is an `Exception` instance caught by the second. -/
theorem outerHandle_propagates_none (x : Option PyExn) : (outerHandle x).2 = none := by
  match x with
  | none => rfl
  | some e => cases e <;> rfl

/-- C1: a received line starting with `data:` whose stripped remainder is
non-empty but fails JSON decoding produces exactly the echo (no detection
block, no log line), raises nothing, and the loop goes on to process the
remaining lines unchanged. -/
theorem c1_malformed_json_silently_skipped (line : String) (rest : List String)
    (hpre : pyStartsWith line "data:" = true)
    (hne : pyStrip (pyDrop line 5) ≠ "")
    (hfail : parseJson (pyStrip (pyDrop line 5)) = none) :
    processLine line = ⟨["📨 " ++ line], [pyStrip (pyDrop line 5)], none⟩ ∧
    runLoop (line :: rest) =
      (("📨 " ++ line) :: (runLoop rest).1,
       pyStrip (pyDrop line 5) :: (runLoop rest).2.1,
       (runLoop rest).2.2) := by
  have hline : line ≠ "" := by
    intro h
    rw [h] at hpre
    exact absurd hpre (by decide)
  have h1 : processLine line = ⟨["📨 " ++ line], [pyStrip (pyDrop line 5)], none⟩ := by
    unfold processLine
    simp [hline, hpre, hne, hfail]
  exact ⟨h1, by simp [runLoop, h1]⟩

/-- C1 witness: the concrete malformed payload `data: \x7b` is echoed,
silently skipped, and the loop continues with the next line. -/
theorem c1_witness :
    (pyStartsWith "data: \x7b" "data:" = true ∧
     pyStrip (pyDrop "data: \x7b" 5) ≠ "" ∧
     parseJson (pyStrip (pyDrop "data: \x7b" 5)) = none) ∧
    processLine "data: \x7b" =
      ⟨["📨 " ++ "data: \x7b"], [pyStrip (pyDrop "data: \x7b" 5)], none⟩ ∧
    runLoop ["data: \x7b", "hello"] =
      (("📨 " ++ "data: \x7b") :: (runLoop ["hello"]).1,
       pyStrip (pyDrop "data: \x7b" 5) :: (runLoop ["hello"]).2.1,
       (runLoop ["hello"]).2.2) :=
  ⟨⟨rfl, by decide, rfl⟩,
   c1_malformed_json_silently_skipped "data: \x7b" ["hello"] rfl (by decide) rfl⟩

/-- C2: for a decoded envelope (a JSON object) whose extracted `topic` is a
string and whose extracted `data` is a mapping, the detection block is
printed if and only if the topic contains both the substring `VideoAnalytics`
and the substring `ObjectDetected`; the block shows the timestamp, the topic,
and the `ObjectClass` / `Confidence` / `BoundingBox` values of `data`, each
defaulting to `N/A` when the key is absent. -/
theorem c2_detection_block_iff (env dataFs : List (String × Json)) (topicS : String)
    (htopic : dictGet env "topic" (Json.str "Unknown") = Json.str topicS)
    (hdata : dictGet env "data" (Json.obj []) = Json.obj dataFs) :
    processData (Json.obj env) =
      (if (pyInStr "VideoAnalytics" topicS && pyInStr "ObjectDetected" topicS) = true then
        (["🎯 OBJECT DETECTION EVENT!",
          "   ⏰ Time: " ++ pyStr (dictGet env "@timestamp" (Json.str "Unknown")),
          "   📂 Topic: " ++ topicS,
          "   🏷️  Class: " ++ pyStr (dictGet dataFs "ObjectClass" (Json.str "N/A")),
          "   📊 Confidence: " ++ pyStr (dictGet dataFs "Confidence" (Json.str "N/A")),
          "   📐 BBox: " ++ pyStr (dictGet dataFs "BoundingBox" (Json.str "N/A")),
          dashLine], none)
      else ([], none)) := by
  cases hb1 : pyInStr "VideoAnalytics" topicS <;>
    cases hb2 : pyInStr "ObjectDetected" topicS <;>
      simp [processData, detectionBlock, pyGet, pyContains, pyStr, htopic, hdata, hb1, hb2]

/-- Envelope used to witness the detection-block claim. -/
def c2envW : List (String × Json) :=
  [("topic", Json.str "tns1:VideoAnalytics/ObjectDetected"),
   ("data", Json.obj [("ObjectClass", Json.str "person")])]

/-- Data mapping of the witness envelope. -/
def c2dataW : List (String × Json) := [("ObjectClass", Json.str "person")]

/-- C2 witness: a concrete envelope with a matching topic and a data mapping
holding only `ObjectClass`. -/
theorem c2_witness :
    dictGet c2envW "topic" (Json.str "Unknown") =
      Json.str "tns1:VideoAnalytics/ObjectDetected" ∧
    dictGet c2envW "data" (Json.obj []) = Json.obj c2dataW ∧
    processData (Json.obj c2envW) =
      (if (pyInStr "VideoAnalytics" "tns1:VideoAnalytics/ObjectDetected" &&
           pyInStr "ObjectDetected" "tns1:VideoAnalytics/ObjectDetected") = true then
        (["🎯 OBJECT DETECTION EVENT!",
          "   ⏰ Time: " ++ pyStr (dictGet c2envW "@timestamp" (Json.str "Unknown")),
          "   📂 Topic: " ++ "tns1:VideoAnalytics/ObjectDetected",
          "   🏷️  Class: " ++ pyStr (dictGet c2dataW "ObjectClass" (Json.str "N/A")),
          "   📊 Confidence: " ++ pyStr (dictGet c2dataW "Confidence" (Json.str "N/A")),
          "   📐 BBox: " ++ pyStr (dictGet c2dataW "BoundingBox" (Json.str "N/A")),
          dashLine], none)
      else ([], none)) :=
  ⟨rfl, rfl, c2_detection_block_iff c2envW c2dataW _ rfl rfl⟩

/-- The example input line of the specification. -/
def c3line : String :=
  "data: \x7b\"topic\":\"tns1:VideoAnalytics/ObjectDetected\",\"data\":\x7b\"ObjectClass\":\"person\",\"Confidence\":\"87\"\x7d,\"@timestamp\":\"12:00:00\"\x7d"

/-- C3: on the specification's example line the iteration prints the echoed
raw line followed by a detection block with time `12:00:00`, class `person`,
confidence `87` and bounding box `N/A`; a full run on just that line prints
the banner followed by exactly those lines. -/
theorem c3_example_line_output :
    processLine c3line =
      ⟨["📨 " ++ c3line,
        "🎯 OBJECT DETECTION EVENT!",
        "   ⏰ Time: 12:00:00",
        "   📂 Topic: tns1:VideoAnalytics/ObjectDetected",
        "   🏷️  Class: person",
        "   📊 Confidence: 87",
        "   📐 BBox: N/A",
        dashLine],
       [pyStrip (pyDrop c3line 5)], none⟩ ∧
    (main_run ⟨none, [c3line], .normal⟩).output =
      headerLines "169.254.118.229" ++ (processLine c3line).out :=
  ⟨rfl, rfl⟩

/-- C4: `subscribe_to_events` always returns normally (nothing is ever
propagated to the caller); a clean body leaves the output at banner plus loop
output, a keyboard interrupt appends the stop message, and any other
exception appends the error message built from the exception's string
form. -/
theorem c4_returns_normally (camera_ip username password : String) (w : World) :
    (subscribe_to_events camera_ip username password w).propagated = none ∧
    ((tryBody w).2 = none →
      (subscribe_to_events camera_ip username password w).output =
        headerLines camera_ip ++ (tryBody w).1) ∧
    ((tryBody w).2 = some PyExn.keyboardInterrupt →
      (subscribe_to_events camera_ip username password w).output =
        headerLines camera_ip ++ (tryBody w).1 ++ ["\n🛑 Stopped by user"]) ∧
    (∀ e, (tryBody w).2 = some e → e ≠ PyExn.keyboardInterrupt →
      (subscribe_to_events camera_ip username password w).output =
        headerLines camera_ip ++ (tryBody w).1 ++ ["❌ Error: " ++ pyExnStr e]) := by
  refine ⟨outerHandle_propagates_none (tryBody w).2, ?_, ?_, ?_⟩
  · intro h
    simp [subscribe_to_events, h, outerHandle]
  · intro h
    simp [subscribe_to_events, h, outerHandle]
  · intro e h hne
    cases e <;> simp_all [subscribe_to_events, outerHandle, isExceptionInstance, pyExnStr]

/-- World ending in a keyboard interrupt before any line arrives. -/
def wInterrupt : World := ⟨none, [], .exn PyExn.keyboardInterrupt⟩

/-- World ending in a transport error before any line arrives. -/
def wTransport : World := ⟨none, [], .exn (PyExn.requestError "boom")⟩

/-- C4 witness: concrete interrupted and failing runs both return normally,
with the stop message and the error message respectively. -/
theorem c4_witness :
    (subscribe_to_events "cam" "root" "pass" wInterrupt).propagated = none ∧
    (subscribe_to_events "cam" "root" "pass" wInterrupt).output =
      headerLines "cam" ++ (tryBody wInterrupt).1 ++ ["\n🛑 Stopped by user"] ∧
    (subscribe_to_events "cam" "root" "pass" wTransport).output =
      headerLines "cam" ++ (tryBody wTransport).1 ++
        ["❌ Error: " ++ pyExnStr (PyExn.requestError "boom")] :=
  ⟨(c4_returns_normally "cam" "root" "pass" wInterrupt).1,
   (c4_returns_normally "cam" "root" "pass" wInterrupt).2.2.1 rfl,
   (c4_returns_normally "cam" "root" "pass" wTransport).2.2.2
     (PyExn.requestError "boom") rfl (by decide)⟩

/-- World delivering a valid-JSON non-object payload and then another line. -/
def c5world : World := ⟨none, ["data: 42", "hello"], .normal⟩

/-- C5: the payload `data: 42` is valid JSON but not an object; the resulting
`AttributeError` escapes the inner decode handler, the outer handler prints
the error message, and the loop exits without processing the following
line (its echo never appears). -/
theorem c5_nonobject_payload_aborts_loop :
    processLine "data: 42" =
      ⟨["📨 data: 42"], ["42"],
       some (PyExn.attributeError "\x27int\x27 object has no attribute \x27get\x27")⟩ ∧
    (main_run c5world).output =
      headerLines "169.254.118.229" ++
        ["📨 data: 42", "❌ Error: \x27int\x27 object has no attribute \x27get\x27"] ∧
    (main_run c5world).propagated = none :=
  ⟨rfl, rfl, rfl⟩

/-- C6 counterexample: on a concrete clean run nothing in the code closes
the response — the claimed surrounding resource-management construct does
not exist in the source. -/
theorem c6_counterexample_no_explicit_close :
    (main_run ⟨none, [], .normal⟩).closed = false := rfl

/-- C6 amended: on no exit path (normal, interrupt, or error) does the code
explicitly release or close the HTTP response; the source has no `with`
block, `try/finally` or `close()` call, so release is left to the library
and interpreter finalization. -/
theorem c6_no_exit_path_closes (camera_ip username password : String) (w : World) :
    (subscribe_to_events camera_ip username password w).closed = false := rfl

/-- C7: every non-empty received line is echoed first: the first line printed
for it is the marker followed by the raw line verbatim, before any parsing
output of that line. -/
theorem c7_echo_printed_first (line : String) (h : line ≠ "") :
    (processLine line).out.head? = some ("📨 " ++ line) := by
  unfold processLine
  cases h2 : pyStartsWith line "data:" <;> simp [h, h2]
  by_cases h3 : pyStrip (pyDrop line 5) = ""
  · simp [h3]
  · cases h4 : parseJson (pyStrip (pyDrop line 5)) <;> simp [h3, h4]

/-- C7 witness: a concrete non-`data:` line is echoed. -/
theorem c7_witness :
    "hello" ≠ "" ∧ (processLine "hello").out.head? = some ("📨 " ++ "hello") :=
  ⟨by decide, c7_echo_printed_first "hello" (by decide)⟩

/-- C8: `json.loads` is invoked for a received line exactly when the line
starts with the literal prefix `data:` and the remainder after dropping the
five prefix characters and stripping whitespace is non-empty — and then on
exactly that stripped remainder.  In particular a line without the prefix is
never parsed as JSON. -/
theorem c8_decode_iff_data_line (line : String) :
    (processLine line).jsonCalls =
      (if pyStartsWith line "data:" = true ∧ pyStrip (pyDrop line 5) ≠ "" then
        [pyStrip (pyDrop line 5)]
      else []) := by
  by_cases h0 : line = ""
  · subst h0
    decide
  · unfold processLine
    cases h1 : pyStartsWith line "data:"
    · simp [h0, h1]
    · by_cases h2 : pyStrip (pyDrop line 5) = ""
      · simp [h0, h1, h2]
      · cases h3 : parseJson (pyStrip (pyDrop line 5)) <;> simp [h0, h1, h2, h3]

/-- C9: a line that is empty after decoding produces no output at all — no
echo, no decode attempt, no exception — and the loop result on the remaining
lines is unchanged. -/
theorem c9_empty_line_no_output :
    processLine "" = ⟨[], [], none⟩ ∧
    ∀ rest : List String, runLoop ("" :: rest) = runLoop rest := by
  refine ⟨rfl, fun rest => ?_⟩
  simp [runLoop, processLine]

/-- C10: every run issues a GET to `http://<camera_ip>/axis-cgi/event.cgi`
with query parameters `action=subscribe` and `events=tns1:VideoAnalytics/*`,
HTTP Digest authentication with the given credentials (defaults
`root`/`pass`, used by the entry point), streaming enabled and a timeout of
60. -/
theorem c10_request_construction (camera_ip username password : String) (w : World) :
    (subscribe_to_events camera_ip username password w).request =
      ⟨"GET", "http://" ++ camera_ip ++ "/axis-cgi/event.cgi",
       [("action", "subscribe"), ("events", "tns1:VideoAnalytics/*")],
       "Digest", username, password, true, 60⟩ ∧
    defaultUsername = "root" ∧ defaultPassword = "pass" ∧
    (main_run w).request.authUser = "root" ∧
    (main_run w).request.authPass = "pass" :=
  ⟨rfl, rfl, rfl, rfl, rfl⟩
